import Mathlib

/-!
Shallow embedding of the migration-orchestration core of
`nova/conductor/manager.py` (class `ComputeTaskManager`), for checking the
repository's specification claims.

External collaborators (scheduler placement, compute-agent RPC, image
service, database persistence) are modelled as oracle parameters; the side
effects the orchestration code issues (record creation/persistence, state
updates with notification, remote dispatch calls) are captured as an ordered
trace of events, so that ordering and exactly-once properties can be stated.
Exceptions are modelled by an inductive error type and `Except`-shaped
results.
-/

namespace Nova

/-- The instance `vm_state` values used by the orchestration core
(`nova/compute/vm_states.py` constants). -/
inductive VmState where
  | active
  | stopped
  | resized
  | error
  | shelved
  | shelvedOffloaded
  | building
deriving DecidableEq, Repr

/-- The instance `task_state` values used by the orchestration core
(`nova/compute/task_states.py` constants). -/
inductive TaskState where
  | migrating
  | poweringOn
  | unshelving
  | resizePrep
  | scheduling
deriving DecidableEq, Repr

/-- The exception kinds the orchestration core raises or handles
(from `nova/exception.py`, referenced by `conductor/manager.py`), plus an
`other` constructor for arbitrary unexpected exceptions and `indexError`
for Python's built-in IndexError (raised by `hosts[0]` / `hosts.pop(0)` on
an empty list). -/
inductive Exc where
  | noValidHost (reason : String)
  | computeServiceUnavailable
  | invalidHypervisorType
  | invalidCPUInfo
  | unableToMigrateToSelf
  | destinationHypervisorTooOld
  | invalidLocalStorage
  | invalidSharedStorage
  | hypervisorUnavailable
  | instanceInvalidState
  | migrationPreCheckError
  | liveMigrationWithOldNovaNotSafe
  | unsupportedPolicyException
  | instanceNotFound
  | instanceInfoCacheNotFound
  | imageNotFound
  | unshelveException (instance_id : String) (reason : String)
  | migrationError (reason : String)
  | notImplementedError
  | indexError
  | other (tag : String)
deriving DecidableEq, Repr

/-- Modelled from the spec: the textual rendering of an exception
(`six.text_type(ex)` in the source; the message catalogue lives in
`nova/exception.py`, which is not under src/). Only the fact that the
wrapping migration error carries the original cause's text matters to the
claims, so each exception kind renders to a distinct string. -/
def excText : Exc → String
  | .noValidHost r => "No valid host was found. " ++ r
  | .computeServiceUnavailable => "Compute service is unavailable."
  | .invalidHypervisorType => "The supplied hypervisor type of is invalid."
  | .invalidCPUInfo => "Unacceptable CPU info."
  | .unableToMigrateToSelf => "Unable to migrate instance to its current host."
  | .destinationHypervisorTooOld => "The instance requires a newer hypervisor version than has been provided."
  | .invalidLocalStorage => "Invalid local storage."
  | .invalidSharedStorage => "Invalid shared storage."
  | .hypervisorUnavailable => "Connection to the hypervisor is broken."
  | .instanceInvalidState => "Instance in an invalid state."
  | .migrationPreCheckError => "Migration pre-check error."
  | .liveMigrationWithOldNovaNotSafe => "Host is running an old version of Nova."
  | .unsupportedPolicyException => "ServerGroup policy is not supported."
  | .instanceNotFound => "Instance could not be found."
  | .instanceInfoCacheNotFound => "Info cache for instance could not be found."
  | .imageNotFound => "Image could not be found."
  | .unshelveException _ r => r
  | .migrationError r => r
  | .notImplementedError => "NotImplementedError"
  | .indexError => "IndexError"
  | .other tag => tag

/-- A flavor (instance type) object, `objects.Flavor`. -/
structure Flavor where
  id : Nat
deriving DecidableEq, Repr

/-- The instance fields read or written by the orchestration core.
`vm_state` is optional because `_cold_migrate` explicitly handles a falsy
`instance.vm_state`; `flavor` is optional because `_live_migrate` branches
on `instance.obj_attr_is_set('flavor')`; `shelved_image_id` models
`instance.system_metadata.get('shelved_image_id')`. -/
structure Instance where
  uuid : String
  host : String
  vm_state : Option VmState
  task_state : Option TaskState
  instance_type_id : Nat
  flavor : Option Flavor
  shelved_image_id : Option String
deriving DecidableEq, Repr

/-- The migration record created by `_live_migrate` (`objects.Migration`). -/
structure Migration where
  dest_compute : Option String
  status : String
  instance_uuid : String
  source_compute : String
  migration_type : String
  old_instance_type_id : Nat
  new_instance_type_id : Nat
deriving DecidableEq, Repr

/-- The `updates` dict passed to `scheduler_utils.set_vm_state_and_notify`. -/
structure StateUpdates where
  vm_state : Option VmState
  task_state : Option TaskState
  expected_task_state : Option TaskState := none
deriving DecidableEq, Repr

/-- One host candidate returned by
`scheduler_client.select_destinations` (a dict with keys `host`,
`nodename`, `limits`). -/
structure HostCand where
  host : String
  nodename : String
  limits : List (String × Nat) := []
deriving DecidableEq, Repr

/-- The filter-properties configuration bag threaded through scheduling
calls. Only the keys the claimed code paths touch are modelled:
`ignore_hosts`, the `retry` accumulator (attempt count and tried hosts)
and the `limits` snapshot recorded by `populate_filter_properties`. -/
structure FilterProperties where
  ignore_hosts : List String := []
  retry_num_attempts : Nat := 0
  retry_hosts : List (String × String) := []
  limits : List (String × Nat) := []
deriving DecidableEq, Repr

/-- Modelled from the spec: `scheduler_utils.populate_filter_properties`
(module `nova/scheduler/utils.py`, not under src/) records the chosen
host in the retry accumulator and stores the host's resource-limits
snapshot into the filter properties. -/
def populate_filter_properties (fp : FilterProperties) (h : HostCand) :
    FilterProperties :=
  { fp with retry_hosts := fp.retry_hosts ++ [(h.host, h.nodename)],
            limits := h.limits }

/-- Modelled from the spec: `scheduler_utils.populate_retry`
(module `nova/scheduler/utils.py`, not under src/) populates the retry
accumulator, keyed by the instance uuid, counting this scheduling
attempt. -/
def populate_retry (fp : FilterProperties) (_uuid : String) :
    FilterProperties :=
  { fp with retry_num_attempts := fp.retry_num_attempts + 1 }

/-- The observable side effects the orchestration code issues, in order:
persistence of the migration record (`migration.create()` /
`migration.save()`), execution of a built task (whose `execute()` performs
the remote dispatch), per-instance state update plus notification
(`scheduler_utils.set_vm_state_and_notify`), the remote compute-agent RPC
dispatches, direct instance saves, and the scheduling calls. -/
inductive Event where
  | migrationCreate (m : Migration)
  | migrationSave (m : Migration)
  | taskExecute (kind : String)
  | setVmStateAndNotify (uuid : String) (method : String) (updates : StateUpdates)
  | buildAndRunInstance (uuid : String) (host : String) (fp : FilterProperties)
  | startInstance (uuid : String)
  | unshelveDispatch (uuid : String) (host : String) (node : String) (fp : FilterProperties)
  | rebuildDispatch (uuid : String) (host : String) (image_ref : String)
      (orig_image_ref : String) (bdms : String)
  | selectDestinations (fp : FilterProperties)
  | instanceSave (uuid : String) (vm : Option VmState) (ts : Option TaskState)
      (expected : Option TaskState)
  | scheduleInstances (uuid : String) (fp : FilterProperties)
  | notifyUsage (event_name : String)
deriving DecidableEq, Repr

/-- The exception classes caught by the first `except` clause of
`ComputeTaskManager._live_migrate` (the known pre-check/placement failure
tuple in the source; note it does not include
`UnsupportedPolicyException`). -/
def liveMigrateKnownExc : Exc → Bool
  | .noValidHost _ => true
  | .computeServiceUnavailable => true
  | .invalidHypervisorType => true
  | .invalidCPUInfo => true
  | .unableToMigrateToSelf => true
  | .destinationHypervisorTooOld => true
  | .invalidLocalStorage => true
  | .invalidSharedStorage => true
  | .hypervisorUnavailable => true
  | .instanceInvalidState => true
  | .migrationPreCheckError => true
  | .liveMigrationWithOldNovaNotSafe => true
  | _ => false

/-- Result of `_live_migrate`: the outcome (normal return or raised
exception), the final state of the migration record, and the event
trace. -/
structure LiveMigrateResult where
  outcome : Except Exc Unit
  migration : Migration
  events : List Event
deriving Repr

/-- The inner `_set_vm_state` helper of `_live_migrate`: it calls
`set_vm_state_and_notify` with updates
`dict(vm_state=vm_state, task_state=task_state,
expected_task_state=task_states.MIGRATING)`; `task_state` defaults to
`None`. -/
def liveMigrateSetVmState (i : Instance) (vm : Option VmState)
    (ts : Option TaskState) : Event :=
  .setVmStateAndNotify i.uuid "migrate_server"
    { vm_state := vm, task_state := ts, expected_task_state := some .migrating }

/-- The migration record `_live_migrate` builds field by field before
`migration.create()`: destination from the scheduler hint, status
`pre-migrating`, source host from `instance.host`, and old/new instance
type id both set from `instance.flavor.id` when the flavor attribute is
set, else from `instance.instance_type_id`. -/
def liveMigrationRecord (i : Instance) (scheduler_hint_host : Option String) :
    Migration :=
  { dest_compute := scheduler_hint_host
    status := "pre-migrating"
    instance_uuid := i.uuid
    source_compute := i.host
    migration_type := "live-migration"
    old_instance_type_id :=
      match i.flavor with
      | some f => f.id
      | none => i.instance_type_id
    new_instance_type_id :=
      match i.flavor with
      | some f => f.id
      | none => i.instance_type_id }

/-- `ComputeTaskManager._live_migrate`. `scheduler_hint_host` is
`scheduler_hint.get("host")`; `taskResult` is the outcome of the built
`LiveMigrationTask.execute()` call (`none` = returned normally,
`some ex` = raised `ex`). The migration record is created and persisted
first (the `migrationCreate` event, i.e. `migration.create()`), then the
task runs (the `taskExecute` event marks the `task.execute()` call that
performs the remote dispatch), and the two `except` branches mirror the
source: the known pre-check/placement tuple re-raises the original after
resetting state and persisting `status=error`; anything else sets
`vm_state=ERROR` preserving `task_state`, persists `status=failed` and
raises `MigrationError(reason=six.text_type(ex))`. -/
def live_migrate (i : Instance) (scheduler_hint_host : Option String)
    (taskResult : Option Exc) : LiveMigrateResult :=
  let migration : Migration := liveMigrationRecord i scheduler_hint_host
  let tail : Except Exc Unit × Migration × List Event :=
    match taskResult with
    | none => (.ok (), migration, [])
    | some ex =>
      if liveMigrateKnownExc ex then
        let m2 := { migration with status := "error" }
        (.error ex, m2,
         [liveMigrateSetVmState i i.vm_state none, Event.migrationSave m2])
      else
        let m2 := { migration with status := "failed" }
        (.error (.migrationError (excText ex)), m2,
         [liveMigrateSetVmState i (some .error) i.task_state,
          Event.migrationSave m2])
  { outcome := tail.1
    migration := tail.2.1
    events := Event.migrationCreate migration ::
      Event.taskExecute "live-migration" :: tail.2.2 }

/-- Result of `_cold_migrate`: outcome and event trace. -/
structure ColdMigrateResult where
  outcome : Except Exc Unit
  events : List Event
deriving Repr

/-- `ComputeTaskManager._cold_migrate`. `taskResult` is the outcome of the
built `MigrationTask.execute()` call. The three `except` branches mirror
the source: `NoValidHost` (revert `vm_state` or default to ACTIVE, clear
`task_state`, notify, raise a fresh `NoValidHost` whose reason
distinguishes migrate from resize by flavor-id comparison),
`UnsupportedPolicyException` (same state reset, re-raise original), and
any other exception (reset with the raw `instance.vm_state`, re-raise
original). -/
def cold_migrate (i : Instance) (flavor : Flavor) (taskResult : Option Exc) :
    ColdMigrateResult :=
  let started : List Event := [Event.taskExecute "cold-migrate"]
  match taskResult with
  | none => { outcome := .ok (), events := started }
  | some ex =>
    match ex with
    | .noValidHost _ =>
      let vm : VmState := i.vm_state.getD .active
      let msg : String :=
        if flavor.id = i.instance_type_id then
          "No valid host found for cold migrate"
        else
          "No valid host found for resize"
      { outcome := .error (.noValidHost msg)
        events := started ++
          [Event.setVmStateAndNotify i.uuid "migrate_server"
            { vm_state := some vm, task_state := none }] }
    | .unsupportedPolicyException =>
      let vm : VmState := i.vm_state.getD .active
      { outcome := .error ex
        events := started ++
          [Event.setVmStateAndNotify i.uuid "migrate_server"
            { vm_state := some vm, task_state := none }] }
    | _ =>
      { outcome := .error ex
        events := started ++
          [Event.setVmStateAndNotify i.uuid "migrate_server"
            { vm_state := i.vm_state, task_state := none }] }

/-- An old-world (pre-object) database-dict-shaped instance argument, as
tolerated by `migrate_server` before v2 of the RPC API. Its contents are
opaque to the claims; conversion is performed by the
`objects.Instance._from_db_object` oracle. -/
structure DbInstance where
  fields : List (String × String)
deriving DecidableEq, Repr

/-- The `instance` argument of `migrate_server`: either already a
canonical `NovaObject` or a legacy db-dict shape. -/
inductive InstanceArg where
  | obj (i : Instance)
  | legacy (d : DbInstance)
deriving DecidableEq, Repr

/-- The `flavor` argument of `migrate_server`: either already a canonical
`objects.Flavor` or a legacy dict shape carrying only the flavor id. -/
inductive FlavorArg where
  | obj (f : Flavor)
  | legacy (id : Nat)
deriving DecidableEq, Repr

/-- The result of one normalization step in `migrate_server`: the
canonical value plus whether a conversion/by-id lookup was performed. -/
structure Normalized (α : Type) where
  value : α
  converted : Bool
deriving DecidableEq, Repr

/-- The instance-normalization prologue of `migrate_server`:
`if instance and not isinstance(instance, nova_object.NovaObject):`
convert via `objects.Instance._from_db_object` (the `fromDb` oracle);
otherwise the argument passes through untouched. -/
def normalize_instance_arg (fromDb : DbInstance → Instance) :
    Option InstanceArg → Normalized (Option Instance)
  | none => ⟨none, false⟩
  | some (.obj i) => ⟨some i, false⟩
  | some (.legacy d) => ⟨some (fromDb d), true⟩

/-- The flavor-normalization prologue of `migrate_server`:
`if flavor and not isinstance(flavor, objects.Flavor):` look the flavor up
by id (`objects.Flavor.get_by_id`, the `getById` oracle); otherwise the
argument passes through untouched. -/
def normalize_flavor_arg (getById : Nat → Flavor) :
    Option FlavorArg → Normalized (Option Flavor)
  | none => ⟨none, false⟩
  | some (.obj f) => ⟨some f, false⟩
  | some (.legacy fid) => ⟨some (getById fid), true⟩

/-- Which migration task `migrate_server` dispatches. -/
inductive Dispatched where
  | liveTask
  | coldTask
deriving DecidableEq, Repr

/-- The routing condition of `migrate_server` (after normalization):
`if live and not rebuild and not flavor:` run `_live_migrate`;
`elif not live and not rebuild and flavor:` run `_cold_migrate`;
`else: raise NotImplementedError()` so no task is dispatched. -/
def migrate_server_route (live rebuild : Bool) (flavor : Option Flavor) :
    Except Exc Dispatched :=
  if live && !rebuild && flavor.isNone then .ok .liveTask
  else if !live && !rebuild && flavor.isSome then .ok .coldTask
  else .error .notImplementedError

/-- Result of `build_instances`: outcome and event trace. -/
structure BuildResult where
  outcome : Except Exc Unit
  events : List Event
deriving Repr

/-- The per-pair dispatch loop of `build_instances`
(`for (instance, host) in itertools.izip(instances, hosts):`). For each
pair, `instance.refresh()` is attempted (modelled by the `refresh` oracle,
`none` = succeeded, `some ex` = raised `ex`); `InstanceNotFound` and
`InstanceInfoCacheNotFound` skip the pair (`continue`), any other refresh
exception propagates and aborts the loop; otherwise the pair is dispatched
with `local_filter_props = copy.deepcopy(filter_properties)` annotated via
`populate_filter_properties` with this pair's host only. The exception
tuple of the `except` clause around `instance.refresh()` is
`refreshNotFound`. -/
def refreshNotFound : Exc → Bool
  | .instanceNotFound => true
  | .instanceInfoCacheNotFound => true
  | _ => false

def buildLoop (fp : FilterProperties) (refresh : String → Option Exc) :
    List (Instance × HostCand) → Except Exc Unit × List Event
  | [] => (.ok (), [])
  | (i, h) :: rest =>
    match refresh i.uuid with
    | some ex =>
      if refreshNotFound ex then buildLoop fp refresh rest
      else (.error ex, [])
    | none =>
      let localFp := populate_filter_properties fp h
      let tail := buildLoop fp refresh rest
      (tail.1, Event.buildAndRunInstance i.uuid h.host localFp :: tail.2)

/-- `ComputeTaskManager.build_instances`. Request-spec building and input
normalization are abstracted; `selectResult` is the combined outcome of
the `try` block around `setup_instance_group`, `populate_retry` and
`select_destinations` (`.error` = any exception raised there, `.ok hosts`
= the selected host list). On any scheduling exception every instance is
set to `vm_state=ERROR, task_state=None` with a per-instance notification
and the method returns normally; on success the per-pair dispatch loop
runs. -/
def build_instances (instances : List Instance) (fp : FilterProperties)
    (selectResult : Except Exc (List HostCand))
    (refresh : String → Option Exc) : BuildResult :=
  match selectResult with
  | .error _ =>
    { outcome := .ok ()
      events := instances.map (fun i =>
        Event.setVmStateAndNotify i.uuid "build_instances"
          { vm_state := some .error, task_state := none }) }
  | .ok hosts =>
    let r := buildLoop fp refresh (instances.zip hosts)
    { outcome := r.1, events := r.2 }

/-- Result of `unshelve_instance` / `rebuild_instance`: outcome, final
instance fields, event trace. -/
structure UnshelveResult where
  outcome : Except Exc Unit
  final : Instance
  events : List Event
deriving Repr

/-- The scheduling-and-dispatch `try` block of `unshelve_instance` for the
`SHELVED_OFFLOADED` state: build an empty filter-properties bag, populate
the retry context, schedule (`_schedule_instances`, modelled by the
`scheduleResult` oracle), take `hosts[0]` (IndexError on an empty list
falls into the generic handler), annotate the filter properties with the
chosen host and dispatch the unshelve RPC. `NoValidHost` and
`UnsupportedPolicyException` clear `task_state`, save and return normally;
any other exception clears `task_state`, saves and re-raises. -/
def unshelveSchedule (i : Instance) (scheduleResult : Except Exc (List HostCand)) :
    UnshelveResult :=
  let fp := populate_retry {} i.uuid
  match scheduleResult with
  | .ok hosts =>
    match hosts with
    | [] =>
      let i2 := { i with task_state := none }
      { outcome := .error .indexError
        final := i2
        events := [.scheduleInstances i.uuid fp,
                   .instanceSave i.uuid i2.vm_state none none] }
    | h :: _ =>
      let fp2 := populate_filter_properties fp h
      { outcome := .ok ()
        final := i
        events := [.scheduleInstances i.uuid fp,
                   .unshelveDispatch i.uuid h.host h.nodename fp2] }
  | .error ex =>
    match ex with
    | .noValidHost _ =>
      let i2 := { i with task_state := none }
      { outcome := .ok ()
        final := i2
        events := [.scheduleInstances i.uuid fp,
                   .instanceSave i.uuid i2.vm_state none none] }
    | .unsupportedPolicyException =>
      let i2 := { i with task_state := none }
      { outcome := .ok ()
        final := i2
        events := [.scheduleInstances i.uuid fp,
                   .instanceSave i.uuid i2.vm_state none none] }
    | _ =>
      let i2 := { i with task_state := none }
      { outcome := .error ex
        final := i2
        events := [.scheduleInstances i.uuid fp,
                   .instanceSave i.uuid i2.vm_state none none] }

/-- `ComputeTaskManager.unshelve_instance`, gated on the current
`vm_state`. `imageLookup` models `self.image_api.get` (`none` =
`ImageNotFound`, `some meta` = the image metadata); `scheduleResult` is the
`_schedule_instances` outcome. `SHELVED`: set `task_state=POWERING_ON`,
save with expected task state `UNSHELVING`, dispatch `start_instance`.
`SHELVED_OFFLOADED`: when a recorded `shelved_image_id` fails to resolve,
set `vm_state=ERROR`, save, raise `UnshelveException`; otherwise schedule
and dispatch. Any other `vm_state`: set `vm_state=ERROR`, save, return
normally without dispatching. -/
def unshelve_instance (i : Instance) (imageLookup : String → Option String)
    (scheduleResult : Except Exc (List HostCand)) : UnshelveResult :=
  if i.vm_state = some .shelved then
    let i2 := { i with task_state := some TaskState.poweringOn }
    { outcome := .ok ()
      final := i2
      events := [.instanceSave i.uuid i2.vm_state i2.task_state
                   (some .unshelving),
                 .startInstance i.uuid] }
  else if i.vm_state = some .shelvedOffloaded then
    match i.shelved_image_id with
    | some iid =>
      match imageLookup iid with
      | none =>
        let i2 := { i with vm_state := some VmState.error }
        { outcome := .error (.unshelveException i.uuid
            ("Unshelve attempted but the image " ++ iid ++
             " cannot be found."))
          final := i2
          events := [.instanceSave i.uuid i2.vm_state i2.task_state none] }
      | some _ => unshelveSchedule i scheduleResult
    | none => unshelveSchedule i scheduleResult
  else
    let i2 := { i with vm_state := some VmState.error }
    { outcome := .ok ()
      final := i2
      events := [.instanceSave i.uuid i2.vm_state i2.task_state none] }

/-- Result of `rebuild_instance`: outcome and event trace. -/
structure RebuildResult where
  outcome : Except Exc Unit
  events : List Event
deriving Repr

/-- `ComputeTaskManager.rebuild_instance`. When `host` is given, the
scheduling block is skipped entirely and the rebuild RPC is dispatched to
it. When `host` is absent, a destination is scheduled with
`filter_properties = dict(ignore_hosts=[instance.host])` (modelled via the
`selectResult` oracle for `setup_instance_group` +
`select_destinations`); `NoValidHost` and `UnsupportedPolicyException`
update state (`vm_state` preserved, `task_state` cleared) with
notification and re-raise, other scheduling exceptions propagate
untouched; on success `hosts.pop(0)['host']` is the destination
(IndexError on an empty list) and the rebuild RPC is dispatched carrying
the new and original image references and the block-device-mapping
context. -/
def rebuild_instance (i : Instance) (image_ref : String)
    (orig_image_ref : String) (bdms : String) (host : Option String)
    (selectResult : Except Exc (List HostCand)) : RebuildResult :=
  match host with
  | some h =>
    { outcome := .ok ()
      events := [.notifyUsage "rebuild.scheduled",
                 .rebuildDispatch i.uuid h image_ref orig_image_ref bdms] }
  | none =>
    let fp : FilterProperties := { ignore_hosts := [i.host] }
    match selectResult with
    | .ok hosts =>
      match hosts with
      | [] =>
        { outcome := .error .indexError
          events := [.selectDestinations fp] }
      | h :: _ =>
        { outcome := .ok ()
          events := [.selectDestinations fp,
                     .notifyUsage "rebuild.scheduled",
                     .rebuildDispatch i.uuid h.host image_ref orig_image_ref
                       bdms] }
    | .error ex =>
      match ex with
      | .noValidHost _ =>
        { outcome := .error ex
          events := [.selectDestinations fp,
                     .setVmStateAndNotify i.uuid "rebuild_server"
                       { vm_state := i.vm_state, task_state := none }] }
      | .unsupportedPolicyException =>
        { outcome := .error ex
          events := [.selectDestinations fp,
                     .setVmStateAndNotify i.uuid "rebuild_server"
                       { vm_state := i.vm_state, task_state := none }] }
      | _ =>
        { outcome := .error ex
          events := [.selectDestinations fp] }

/-- Recognizer for `build_and_run_instance` dispatch events, used to state
that a trace contains no build dispatch. -/
def isBuildDispatchEvent : Event → Bool
  | .buildAndRunInstance _ _ _ => true
  | _ => false

/-- C1: for every live migration, a MigrationRecord is created and
persisted with status `pre-migrating` as the very first observable effect
of `_live_migrate` — in particular before the task execution that performs
any remote dispatch — and the record captures the source host from the
instance's current host and sets old and new instance-type ids equal,
taken from the instance's flavor (or its `instance_type_id` when the
flavor attribute is unset). Holds for every task outcome. -/
theorem live_migrate_record_created_first (i : Instance)
    (dest : Option String) (taskResult : Option Exc) :
    ∃ rest, (live_migrate i dest taskResult).events =
        Event.migrationCreate (liveMigrationRecord i dest) ::
          Event.taskExecute "live-migration" :: rest ∧
      (liveMigrationRecord i dest).status = "pre-migrating" ∧
      (liveMigrationRecord i dest).source_compute = i.host ∧
      (liveMigrationRecord i dest).instance_uuid = i.uuid ∧
      (liveMigrationRecord i dest).old_instance_type_id =
        (liveMigrationRecord i dest).new_instance_type_id ∧
      (liveMigrationRecord i dest).old_instance_type_id =
        (match i.flavor with
         | some f => f.id
         | none => i.instance_type_id) :=
  ⟨_, rfl, rfl, rfl, rfl, rfl, rfl⟩

/-- C3: a cold migration failing with `NoValidHost` resets the instance's
`vm_state` to its pre-call value (ACTIVE when that value is absent) with
`task_state` cleared, records this state update with its notification in
the trace (the error is only raised on return, i.e. after the update), and
raises a fresh `NoValidHost` whose reason is "No valid host found for cold
migrate" when the target flavor id equals the instance's current flavor id
and "No valid host found for resize" otherwise. -/
theorem cold_migrate_no_valid_host (i : Instance) (fl : Flavor)
    (r : String) :
    cold_migrate i fl (some (.noValidHost r)) =
      { outcome := .error (.noValidHost
          (if fl.id = i.instance_type_id then
            "No valid host found for cold migrate"
          else
            "No valid host found for resize"))
        events := [.taskExecute "cold-migrate",
                   .setVmStateAndNotify i.uuid "migrate_server"
                     { vm_state := some (i.vm_state.getD .active),
                       task_state := none }] } :=
  rfl

/-- C5: when host selection for a `build_instances` batch fails with any
exception, every instance of the batch gets `vm_state=ERROR`,
`task_state=None` recorded and notified, the trace contains no build
dispatch at all, and the method returns normally instead of re-raising. -/
theorem build_instances_select_failure (instances : List Instance)
    (fp : FilterProperties) (ex : Exc) (refresh : String → Option Exc) :
    (build_instances instances fp (.error ex) refresh).outcome = .ok () ∧
    (build_instances instances fp (.error ex) refresh).events =
      instances.map (fun i =>
        Event.setVmStateAndNotify i.uuid "build_instances"
          { vm_state := some .error, task_state := none }) ∧
    (build_instances instances fp (.error ex) refresh).events.all
      (fun ev => !isBuildDispatchEvent ev) = true := by
  refine ⟨rfl, rfl, ?_⟩
  simp [build_instances, List.all_eq_true, isBuildDispatchEvent]

/-- C6: `migrate_server` dispatches the live-migration task exactly when
`live` is set, `rebuild` is not, and no flavor is given; the cold-migration
task exactly when `live` is not set, `rebuild` is not, and a flavor is
given; and every other flag combination raises `NotImplementedError`, in
which case no task is dispatched (the routing result carries no task). -/
theorem migrate_server_routing (live rebuild : Bool)
    (flavor : Option Flavor) :
    (migrate_server_route live rebuild flavor = .ok .liveTask ↔
      live = true ∧ rebuild = false ∧ flavor = none) ∧
    (migrate_server_route live rebuild flavor = .ok .coldTask ↔
      live = false ∧ rebuild = false ∧ flavor.isSome = true) ∧
    (migrate_server_route live rebuild flavor = .error .notImplementedError ↔
      (¬(live = true ∧ rebuild = false ∧ flavor = none) ∧
       ¬(live = false ∧ rebuild = false ∧ flavor.isSome = true))) := by
  cases live <;> cases rebuild <;> cases flavor <;>
    simp [migrate_server_route]

/-- C9: the input normalization of `migrate_server` is idempotent — an
instance argument that is already a canonical object and a flavor argument
that is already a canonical Flavor object both pass through unchanged,
with no conversion and no by-id lookup performed (the `converted` flag
stays false), for every possible lookup oracle. -/
theorem migrate_server_normalization_idempotent (i : Instance) (f : Flavor)
    (fromDb : DbInstance → Instance) (getById : Nat → Flavor) :
    normalize_instance_arg fromDb (some (.obj i)) = ⟨some i, false⟩ ∧
    normalize_flavor_arg getById (some (.obj f)) = ⟨some f, false⟩ :=
  ⟨rfl, rfl⟩

/-- A concrete instance used to exhibit concrete behaviours. -/
def sampleInstance : Instance :=
  { uuid := "inst-uuid-1"
    host := "host-a"
    vm_state := some .active
    task_state := some .migrating
    instance_type_id := 5
    flavor := some ⟨5⟩
    shelved_image_id := none }

/-- C2 counterexample: `UnsupportedPolicyException` is not in the known
pre-check/placement tuple of `_live_migrate` — raised during a live
migration it takes the generic branch, so the MigrationRecord status
becomes `failed` (not `error`, as the claim's inclusion of "unsupported
policy" in the known class would require) and the raised error is the
wrapping `MigrationError`, not the original exception. -/
theorem live_migrate_unsupported_policy_counterexample :
    (live_migrate sampleInstance none
      (some .unsupportedPolicyException)).migration.status = "failed" ∧
    ¬((live_migrate sampleInstance none
      (some .unsupportedPolicyException)).migration.status = "error") ∧
    (live_migrate sampleInstance none
      (some .unsupportedPolicyException)).outcome =
      .error (.migrationError (excText .unsupportedPolicyException)) ∧
    ¬((live_migrate sampleInstance none
      (some .unsupportedPolicyException)).outcome =
        .error .unsupportedPolicyException) := by
  refine ⟨rfl, by decide, rfl, ?_⟩
  intro h
  have h2 : Exc.migrationError (excText .unsupportedPolicyException) =
      Exc.unsupportedPolicyException := by
    have h1 : (live_migrate sampleInstance none
        (some .unsupportedPolicyException)).outcome =
        .error (.migrationError (excText .unsupportedPolicyException)) := rfl
    rw [h1] at h
    exact Except.error.inj h
  exact absurd h2 (by decide)

/-- C2 (amended: the known pre-check/placement failure class is the tuple
actually caught by `_live_migrate`, which does not include
`UnsupportedPolicyException`): when the live-migration task raises an
exception from the known class, the instance's `vm_state` is reset to its
value at call time with `task_state` cleared (under expected task state
MIGRATING), the MigrationRecord status is set to `error` and persisted,
and the original exception is re-raised; for every other exception
(including `UnsupportedPolicyException`), `vm_state` is set to ERROR
preserving the current `task_state`, the MigrationRecord status is set to
`failed` and persisted, and a wrapping `MigrationError` carrying the
original cause's text is raised instead of the original exception. -/
theorem live_migrate_failure_policy (i : Instance) (dest : Option String)
    (ex : Exc) :
    (liveMigrateKnownExc ex = true →
      live_migrate i dest (some ex) =
        { outcome := .error ex
          migration := { liveMigrationRecord i dest with status := "error" }
          events := [.migrationCreate (liveMigrationRecord i dest),
                     .taskExecute "live-migration",
                     .setVmStateAndNotify i.uuid "migrate_server"
                       { vm_state := i.vm_state, task_state := none,
                         expected_task_state := some .migrating },
                     .migrationSave
                       { liveMigrationRecord i dest with
                           status := "error" }] }) ∧
    (liveMigrateKnownExc ex = false →
      live_migrate i dest (some ex) =
        { outcome := .error (.migrationError (excText ex))
          migration := { liveMigrationRecord i dest with status := "failed" }
          events := [.migrationCreate (liveMigrationRecord i dest),
                     .taskExecute "live-migration",
                     .setVmStateAndNotify i.uuid "migrate_server"
                       { vm_state := some .error, task_state := i.task_state,
                         expected_task_state := some .migrating },
                     .migrationSave
                       { liveMigrationRecord i dest with
                           status := "failed" }] }) := by
  constructor <;> intro h <;>
    simp [live_migrate, liveMigrateSetVmState, h]

/-- Witness for the amended C2 theorem at concrete inputs: a known
exception (`NoValidHost`) yields status `error`, an unknown one yields
status `failed`. -/
theorem live_migrate_failure_policy_witness :
    (liveMigrateKnownExc (.noValidHost "no host") = true ∧
      (live_migrate sampleInstance none
        (some (.noValidHost "no host"))).migration.status = "error") ∧
    (liveMigrateKnownExc (.other "boom") = false ∧
      (live_migrate sampleInstance none
        (some (.other "boom"))).migration.status = "failed") := by
  refine ⟨⟨rfl, ?_⟩, ⟨rfl, ?_⟩⟩
  · rw [(live_migrate_failure_policy sampleInstance none
      (.noValidHost "no host")).1 rfl]
  · rw [(live_migrate_failure_policy sampleInstance none
      (.other "boom")).2 rfl]

/-- Every event emitted by the per-pair dispatch loop of `build_instances`
is a build dispatch for one of its own (instance, host) pairs, carrying
filter properties derived from the original batch filter properties
annotated with that pair's host only. -/
theorem buildLoop_events_shape (fp : FilterProperties)
    (refresh : String → Option Exc) :
    ∀ pairs ev, ev ∈ (buildLoop fp refresh pairs).2 →
      ∃ p ∈ pairs, ev = Event.buildAndRunInstance p.1.uuid p.2.host
        (populate_filter_properties fp p.2) := by
  intro pairs
  induction pairs with
  | nil => intro ev hev; simp [buildLoop] at hev
  | cons ph rest ih =>
    obtain ⟨i, h⟩ := ph
    intro ev hev
    rcases hre : refresh i.uuid with _ | ex
    · simp only [buildLoop, hre] at hev
      rcases List.mem_cons.1 hev with hhead | htail
      · exact ⟨(i, h), List.mem_cons_self _ _, hhead⟩
      · obtain ⟨p, hp, hev2⟩ := ih ev htail
        exact ⟨p, List.mem_cons_of_mem _ hp, hev2⟩
    · simp only [buildLoop, hre] at hev
      by_cases hnf : refreshNotFound ex = true
      · rw [if_pos hnf] at hev
        obtain ⟨p, hp, hev2⟩ := ih ev hev
        exact ⟨p, List.mem_cons_of_mem _ hp, hev2⟩
      · rw [if_neg hnf] at hev
        simp at hev

/-- C4: in `build_instances`, after a successful batch placement each
(instance, host) pair is independently re-validated — a pair whose
`refresh()` fails with a not-found error is skipped without failing the
batch — and each remaining instance is dispatched with its own copy of the
filter properties annotated with its own host only (so one instance's
placement annotations never affect another's). In particular, for a batch
of 3 instances where instance 2's refresh raises `InstanceNotFound`,
exactly the dispatches for instances 1 and 3 occur and no exception
escapes the call. -/
theorem build_instances_skips_vanished (i1 i2 i3 : Instance)
    (h1 h2 h3 : HostCand) (fp : FilterProperties)
    (refresh : String → Option Exc)
    (hr1 : refresh i1.uuid = none)
    (hr2 : refresh i2.uuid = some .instanceNotFound)
    (hr3 : refresh i3.uuid = none) :
    build_instances [i1, i2, i3] fp (.ok [h1, h2, h3]) refresh =
      { outcome := .ok ()
        events := [.buildAndRunInstance i1.uuid h1.host
                     (populate_filter_properties fp h1),
                   .buildAndRunInstance i3.uuid h3.host
                     (populate_filter_properties fp h3)] } ∧
    (∀ pairs ev, ev ∈ (buildLoop fp refresh pairs).2 →
      ∃ p ∈ pairs, ev = Event.buildAndRunInstance p.1.uuid p.2.host
        (populate_filter_properties fp p.2)) := by
  refine ⟨?_, buildLoop_events_shape fp refresh⟩
  simp [build_instances, buildLoop, hr1, hr2, hr3, refreshNotFound]

/-- Concrete data for the C4 witness: a 3-instance batch whose middle
instance vanishes during build. -/
def wInstance1 : Instance :=
  { uuid := "u1", host := "h0", vm_state := some .building,
    task_state := some .scheduling, instance_type_id := 1,
    flavor := none, shelved_image_id := none }

def wInstance2 : Instance :=
  { wInstance1 with uuid := "u2" }

def wInstance3 : Instance :=
  { wInstance1 with uuid := "u3" }

def wHost1 : HostCand := { host := "hostA", nodename := "nodeA" }

def wHost2 : HostCand := { host := "hostB", nodename := "nodeB" }

def wHost3 : HostCand := { host := "hostC", nodename := "nodeC" }

def wRefresh : String → Option Exc :=
  fun u => if u = "u2" then some .instanceNotFound else none

/-- Witness for C4 at concrete inputs: with instance `u2` vanished, the
batch yields exactly two dispatches and returns normally. -/
theorem build_instances_skips_vanished_witness :
    wRefresh wInstance2.uuid = some .instanceNotFound ∧
    (build_instances [wInstance1, wInstance2, wInstance3] {}
      (.ok [wHost1, wHost2, wHost3]) wRefresh).outcome = .ok () ∧
    (build_instances [wInstance1, wInstance2, wInstance3] {}
      (.ok [wHost1, wHost2, wHost3]) wRefresh).events =
      [.buildAndRunInstance "u1" "hostA"
         (populate_filter_properties {} wHost1),
       .buildAndRunInstance "u3" "hostC"
         (populate_filter_properties {} wHost3)] := by
  have hmain := (build_instances_skips_vanished wInstance1 wInstance2
    wInstance3 wHost1 wHost2 wHost3 {} wRefresh (by decide) (by decide)
    (by decide)).1
  refine ⟨by decide, ?_, ?_⟩
  · rw [hmain]
  · rw [hmain]
    rfl

/-- C7: `unshelve_instance` is gated on the current `vm_state`. From
SHELVED it saves `task_state=POWERING_ON` (expecting UNSHELVING) and
dispatches a power-on directly, with no scheduling. From SHELVED_OFFLOADED
with a recorded shelved-image id that no longer resolves it sets
`vm_state=ERROR`, persists, and raises the unshelve not-found error. From
SHELVED_OFFLOADED otherwise (no recorded image id, or one that resolves)
it schedules with a retry context and dispatches unshelve to the selected
host. From any other `vm_state` it sets `vm_state=ERROR`, persists, and
returns with no dispatch. -/
theorem unshelve_state_machine (i : Instance)
    (imageLookup : String → Option String)
    (scheduleResult : Except Exc (List HostCand)) :
    (i.vm_state = some .shelved →
      unshelve_instance i imageLookup scheduleResult =
        { outcome := .ok ()
          final := { i with task_state := some TaskState.poweringOn }
          events := [.instanceSave i.uuid i.vm_state
                       (some .poweringOn) (some .unshelving),
                     .startInstance i.uuid] }) ∧
    (i.vm_state = some .shelvedOffloaded →
      ∀ iid, i.shelved_image_id = some iid → imageLookup iid = none →
      unshelve_instance i imageLookup scheduleResult =
        { outcome := .error (.unshelveException i.uuid
            ("Unshelve attempted but the image " ++ iid ++
             " cannot be found."))
          final := { i with vm_state := some VmState.error }
          events := [.instanceSave i.uuid (some .error) i.task_state
                       none] }) ∧
    (i.vm_state = some .shelvedOffloaded →
      (∀ iid, i.shelved_image_id = some iid → imageLookup iid ≠ none) →
      ∀ h rest, scheduleResult = .ok (h :: rest) →
      unshelve_instance i imageLookup scheduleResult =
        { outcome := .ok ()
          final := i
          events := [.scheduleInstances i.uuid (populate_retry {} i.uuid),
                     .unshelveDispatch i.uuid h.host h.nodename
                       (populate_filter_properties
                         (populate_retry {} i.uuid) h)] }) ∧
    (¬(i.vm_state = some .shelved) → ¬(i.vm_state = some .shelvedOffloaded) →
      unshelve_instance i imageLookup scheduleResult =
        { outcome := .ok ()
          final := { i with vm_state := some VmState.error }
          events := [.instanceSave i.uuid (some .error) i.task_state
                       none] }) := by
  refine ⟨?_, ?_, ?_, ?_⟩
  · intro h1
    simp [unshelve_instance, h1]
  · intro h1 iid h2 h3
    simp [unshelve_instance, h1, h2, h3]
  · intro h1 hlk h rest hsr
    subst hsr
    rcases hsi : i.shelved_image_id with _ | iid
    · simp [unshelve_instance, unshelveSchedule, h1, hsi]
    · rcases hli : imageLookup iid with _ | v
      · exact absurd hli (hlk iid hsi)
      · simp [unshelve_instance, unshelveSchedule, h1, hsi, hli]
  · intro h1 h2
    simp [unshelve_instance, h1, h2]

/-- Fixtures for the unshelve witnesses. -/
def wShelved : Instance :=
  { uuid := "sh-1", host := "hostS", vm_state := some .shelved,
    task_state := some .unshelving, instance_type_id := 2, flavor := none,
    shelved_image_id := none }

def wOffloaded : Instance :=
  { wShelved with vm_state := some .shelvedOffloaded }

def wOffloadedImg : Instance :=
  { wShelved with vm_state := some .shelvedOffloaded,
                  shelved_image_id := some "img-9" }

def wLookupNone : String → Option String := fun _ => none

def wLookupSome : String → Option String := fun _ => some "meta"

/-- Witness for C7 at concrete inputs, one per branch of the state
machine: direct power-on from SHELVED; unshelve error on an unresolvable
image from SHELVED_OFFLOADED; scheduling and dispatch otherwise from
SHELVED_OFFLOADED; and ERROR with no dispatch from any other state. -/
theorem unshelve_state_machine_witness :
    (unshelve_instance wShelved wLookupSome (.ok [wHost1])).events =
      [.instanceSave "sh-1" (some .shelved) (some .poweringOn)
         (some .unshelving), .startInstance "sh-1"] ∧
    (unshelve_instance wOffloadedImg wLookupNone (.ok [wHost1])).outcome =
      .error (.unshelveException "sh-1"
        ("Unshelve attempted but the image " ++ "img-9" ++
         " cannot be found.")) ∧
    (unshelve_instance wOffloaded wLookupSome (.ok [wHost1])).events =
      [.scheduleInstances "sh-1" (populate_retry {} "sh-1"),
       .unshelveDispatch "sh-1" "hostA" "nodeA"
         (populate_filter_properties (populate_retry {} "sh-1") wHost1)] ∧
    (unshelve_instance sampleInstance wLookupSome (.ok [wHost1])).final.vm_state =
      some .error := by
  refine ⟨?_, ?_, ?_, ?_⟩
  · rw [(unshelve_state_machine wShelved wLookupSome (.ok [wHost1])).1 rfl]
    rfl
  · rw [(unshelve_state_machine wOffloadedImg wLookupNone
      (.ok [wHost1])).2.1 rfl "img-9" rfl rfl]
    rfl
  · rw [(unshelve_state_machine wOffloaded wLookupSome (.ok [wHost1])).2.2.1
      rfl (fun iid h => nomatch h) wHost1 [] rfl]
    rfl
  · rw [(unshelve_state_machine sampleInstance wLookupSome
      (.ok [wHost1])).2.2.2 (by decide) (by decide)]

/-- C10: from SHELVED_OFFLOADED with a resolvable (or absent) recorded
image, a scheduling failure with `NoValidHost` or
`UnsupportedPolicyException` makes `unshelve_instance` return normally
without raising: only `task_state` is cleared and saved, `vm_state` stays
SHELVED_OFFLOADED (not ERROR), and no unshelve dispatch occurs (the trace
holds only the scheduling attempt and the save). -/
theorem unshelve_placement_failure_benign (i : Instance)
    (imageLookup : String → Option String) (e : Exc)
    (h1 : i.vm_state = some .shelvedOffloaded)
    (hlk : ∀ iid, i.shelved_image_id = some iid → imageLookup iid ≠ none)
    (he : (∃ r, e = .noValidHost r) ∨ e = .unsupportedPolicyException) :
    unshelve_instance i imageLookup (.error e) =
      { outcome := .ok ()
        final := { i with task_state := none }
        events := [.scheduleInstances i.uuid (populate_retry {} i.uuid),
                   .instanceSave i.uuid i.vm_state none none] } ∧
    (unshelve_instance i imageLookup (.error e)).final.vm_state =
      some .shelvedOffloaded := by
  have hmain : unshelve_instance i imageLookup (.error e) =
      { outcome := .ok ()
        final := { i with task_state := none }
        events := [.scheduleInstances i.uuid (populate_retry {} i.uuid),
                   .instanceSave i.uuid i.vm_state none none] } := by
    have hsched : ∀ iid', i.shelved_image_id = some iid' →
        ∀ v, imageLookup iid' = some v → True := fun _ _ _ _ => trivial
    rcases he with ⟨r, rfl⟩ | rfl <;>
      · rcases hsi : i.shelved_image_id with _ | iid
        · simp [unshelve_instance, unshelveSchedule, h1, hsi]
        · rcases hli : imageLookup iid with _ | v
          · exact absurd hli (hlk iid hsi)
          · simp [unshelve_instance, unshelveSchedule, h1, hsi, hli]
  refine ⟨hmain, ?_⟩
  rw [hmain]
  exact h1

/-- Witness for C10 at a concrete input: scheduling fails with
`NoValidHost` for an offloaded instance; the call returns normally with
`vm_state` unchanged and `task_state` cleared. -/
theorem unshelve_placement_failure_benign_witness :
    wOffloaded.vm_state = some .shelvedOffloaded ∧
    (unshelve_instance wOffloaded wLookupSome
      (.error (.noValidHost "no host"))).outcome = .ok () ∧
    (unshelve_instance wOffloaded wLookupSome
      (.error (.noValidHost "no host"))).final.vm_state =
        some .shelvedOffloaded ∧
    (unshelve_instance wOffloaded wLookupSome
      (.error (.noValidHost "no host"))).final.task_state = none := by
  have h := unshelve_placement_failure_benign wOffloaded wLookupSome
    (.noValidHost "no host") rfl (fun iid hx => nomatch hx)
    (Or.inl ⟨"no host", rfl⟩)
  refine ⟨rfl, ?_, h.2, ?_⟩
  · rw [h.1]
  · rw [h.1]

/-- C8: `rebuild_instance` with no explicit host schedules a destination
with `ignore_hosts` set to the instance's current host; on `NoValidHost`
or `UnsupportedPolicyException` it records the state update (`vm_state`
preserved, `task_state` cleared) with its notification and re-raises,
issuing no rebuild dispatch; on success, or when a host is explicitly
given, it dispatches the rebuild call carrying the new and original image
references and the block-device-mapping context. -/
theorem rebuild_schedule_and_failure (i : Instance)
    (image_ref orig_image_ref bdms : String)
    (selectResult : Except Exc (List HostCand)) :
    (∀ r, selectResult = .error (.noValidHost r) →
      rebuild_instance i image_ref orig_image_ref bdms none selectResult =
        { outcome := .error (.noValidHost r)
          events := [.selectDestinations { ignore_hosts := [i.host] },
                     .setVmStateAndNotify i.uuid "rebuild_server"
                       { vm_state := i.vm_state, task_state := none }] }) ∧
    (selectResult = .error .unsupportedPolicyException →
      rebuild_instance i image_ref orig_image_ref bdms none selectResult =
        { outcome := .error .unsupportedPolicyException
          events := [.selectDestinations { ignore_hosts := [i.host] },
                     .setVmStateAndNotify i.uuid "rebuild_server"
                       { vm_state := i.vm_state, task_state := none }] }) ∧
    (∀ h rest, selectResult = .ok (h :: rest) →
      rebuild_instance i image_ref orig_image_ref bdms none selectResult =
        { outcome := .ok ()
          events := [.selectDestinations { ignore_hosts := [i.host] },
                     .notifyUsage "rebuild.scheduled",
                     .rebuildDispatch i.uuid h.host image_ref orig_image_ref
                       bdms] }) ∧
    (∀ h, rebuild_instance i image_ref orig_image_ref bdms (some h)
        selectResult =
      { outcome := .ok ()
        events := [.notifyUsage "rebuild.scheduled",
                   .rebuildDispatch i.uuid h image_ref orig_image_ref
                     bdms] }) := by
  refine ⟨?_, ?_, ?_, fun h => rfl⟩
  · intro r hsr
    subst hsr
    rfl
  · intro hsr
    subst hsr
    rfl
  · intro h rest hsr
    subst hsr
    rfl

/-- Witness for C8 at concrete inputs: a `NoValidHost` scheduling failure
re-raises after the state update with no dispatch, a successful scheduling
dispatches to the selected host, and an explicit host skips scheduling. -/
theorem rebuild_schedule_and_failure_witness :
    (rebuild_instance sampleInstance "img-new" "img-old" "bdms" none
      (.error (.noValidHost "nh"))).outcome = .error (.noValidHost "nh") ∧
    (rebuild_instance sampleInstance "img-new" "img-old" "bdms" none
      (.ok [wHost1])).events =
      [.selectDestinations { ignore_hosts := ["host-a"] },
       .notifyUsage "rebuild.scheduled",
       .rebuildDispatch "inst-uuid-1" "hostA" "img-new" "img-old" "bdms"] ∧
    (rebuild_instance sampleInstance "img-new" "img-old" "bdms"
      (some "hostZ") (.ok [])).events =
      [.notifyUsage "rebuild.scheduled",
       .rebuildDispatch "inst-uuid-1" "hostZ" "img-new" "img-old" "bdms"] := by
  refine ⟨?_, ?_, ?_⟩
  · rw [(rebuild_schedule_and_failure sampleInstance "img-new" "img-old"
      "bdms" (.error (.noValidHost "nh"))).1 "nh" rfl]
  · rw [(rebuild_schedule_and_failure sampleInstance "img-new" "img-old"
      "bdms" (.ok [wHost1])).2.2.1 wHost1 [] rfl]
    rfl
  · rw [(rebuild_schedule_and_failure sampleInstance "img-new" "img-old"
      "bdms" (.ok [])).2.2.2 "hostZ"]
    rfl

end Nova
